import Mathlib

set_option maxRecDepth 4000

/-!
Verification of the location-sharing core of the `profile-verified-login`
repository: the grid codec (`src/src/utils/gridUtils.ts`), the presence
classifier and change-feed subscription (`src/src/components/UserTrackingPage.tsx`)
and the location publisher / sharing toggle (`src/src/components/LocationToggle.tsx`).

Numbers are embedded as rationals (`ℚ`), timestamps as integer milliseconds (`ℤ`).
JavaScript's `%` on numbers is the truncated remainder (sign of the dividend),
which is `Int.tmod`; `Math.floor` is `Int.floor`.
-/

/-! ### Grid codec, from `src/src/utils/gridUtils.ts` -/

/-- Embedding of `const latBase = Math.floor(lat * 1000) % 26` (gridUtils.ts line 4).
JS `%` is the truncated remainder, `Int.tmod`. -/
def latBase (lat : ℚ) : ℤ := (⌊lat * 1000⌋).tmod 26

/-- Embedding of `const lngBase = Math.floor(lng * 1000) % 99` (gridUtils.ts line 5). -/
def lngBase (lng : ℚ) : ℤ := (⌊lng * 1000⌋).tmod 99

/-- Embedding of `const letter = String.fromCharCode(65 + latBase)` (gridUtils.ts line 7).
The char code `65 + latBase` lies in `(39, 91)`, so `toNat` is lossless. -/
def gridLetter (lat : ℚ) : Char := Char.ofNat (65 + latBase lat).toNat

/-- Embedding of `const number = lngBase + 1` (gridUtils.ts line 8). -/
def gridNumber (lng : ℚ) : ℤ := lngBase lng + 1

/-- Embedding of `coordsToGrid` (gridUtils.ts lines 2-12): the template literal
`` `${letter}:${number}` ``. -/
def coordsToGrid (lat lng : ℚ) : String :=
  String.mk [gridLetter lat] ++ ":" ++ toString (gridNumber lng)

/-- The pair returned by `gridToCoords` on success. -/
structure Coords where
  lat : ℚ
  lng : ℚ
deriving DecidableEq

/-- Truth of the regex character class `[A-Z]`. -/
def isUpperAZ (c : Char) : Bool := decide ('A' ≤ c) && decide (c ≤ 'Z')

/-- Truth of the regex character class `\d`, i.e. `[0-9]`. -/
def isDigitChar (c : Char) : Bool := decide ('0' ≤ c) && decide (c ≤ '9')

/-- Value of `parseInt` applied to a non-empty all-digit string: its decimal value. -/
def digitsToNat (ds : List Char) : ℕ :=
  ds.foldl (fun acc c => 10 * acc + (c.toNat - 48)) 0

/-- Embedding of `gridToCoords` (gridUtils.ts lines 15-29): match against `/^([A-Z]):(\d+)$/`
(one uppercase letter, a colon, one or more digits, anchored at both ends);
`null` on mismatch.  On a match, `latBase = letter.charCodeAt(0) - 65`,
`lngBase = parseInt(digits) - 1`, and the result is
`{lat: latBase / 1000, lng: lngBase / 1000}`. -/
def gridToCoords (grid : String) : Option Coords :=
  match grid.data with
  | l :: c :: rest =>
    if c == ':' && isUpperAZ l && !rest.isEmpty && rest.all isDigitChar then
      some { lat := (((l.toNat : ℤ) - 65 : ℤ) : ℚ) / 1000,
             lng := (((digitsToNat rest : ℤ) - 1 : ℤ) : ℚ) / 1000 }
    else none
  | _ => none

/-- The spec's claimed output shape for `coordsToGrid`: the regex
`^[A-Z]:[1-9][0-9]?$`, digit part. -/
def claimDigitsOk : List Char → Bool
  | [d] => decide ('1' ≤ d) && decide (d ≤ '9')
  | [d, e] => (decide ('1' ≤ d) && decide (d ≤ '9')) && isDigitChar e
  | _ => false

/-- The spec's claimed output shape for `coordsToGrid`: the regex
`^[A-Z]:[1-9][0-9]?$` as a decidable string predicate. -/
def claimLabelPattern (s : String) : Bool :=
  match s.data with
  | l :: c :: ds => isUpperAZ l && c == ':' && claimDigitsOk ds
  | _ => false

/-- Helper: evaluate `latBase` once the scaled latitude is known to be an integer. -/
theorem latBase_eq_tmod (lat : ℚ) (n : ℤ) (h : lat * 1000 = (n : ℚ)) :
    latBase lat = n.tmod 26 := by
  unfold latBase
  rw [h, Int.floor_intCast]

/-- Helper: evaluate `lngBase` once the scaled longitude is known to be an integer. -/
theorem lngBase_eq_tmod (lng : ℚ) (n : ℤ) (h : lng * 1000 = (n : ℚ)) :
    lngBase lng = n.tmod 99 := by
  unfold lngBase
  rw [h, Int.floor_intCast]

/-! ### Arithmetic facts about the truncated remainder -/

/-- The truncated remainder negates with its dividend, like the JS `%`. -/
theorem tmod_neg_dividend (a b : ℤ) : (-a).tmod b = -(a.tmod b) := by
  rw [Int.tmod_def, Int.tmod_def, Int.neg_tdiv]
  ring

/-- Two-sided bound on the truncated remainder by a positive divisor. -/
theorem tmod_bounds (a : ℤ) {b : ℤ} (hb : 0 < b) :
    -b < a.tmod b ∧ a.tmod b < b := by
  refine ⟨?_, Int.tmod_lt_of_pos a hb⟩
  rcases le_or_lt 0 a with ha | ha
  · have h0 : 0 ≤ a.tmod b := Int.tmod_nonneg b ha
    linarith
  · have h1 : a.tmod b = -((-a).tmod b) := by
      rw [tmod_neg_dividend]; ring
    have h2 : (-a).tmod b < b := Int.tmod_lt_of_pos (-a) hb
    linarith

/-- A non-negative dividend smaller than the divisor is its own remainder. -/
theorem tmod_self_of_bounds {a b : ℤ} (h0 : 0 ≤ a) (h1 : a < b) : a.tmod b = a :=
  Int.tmod_eq_of_lt h0 h1

/-! ### Finite character and digit-string facts -/

/-- For every candidate char code produced by `coordsToGrid` (codes up to 90),
`isUpperAZ` holds exactly for codes 65..90, and `Char.toNat` inverts `Char.ofNat`. -/
theorem isUpperAZ_ofNat : ∀ n : ℕ, n < 91 →
    (isUpperAZ (Char.ofNat n) = decide (65 ≤ n) ∧ (Char.ofNat n).toNat = n) := by
  decide

/-- Rendering of every integer that `gridNumber` can produce (`-97..99`) followed by
the digit test and `parseInt`: the rendering is all digits iff the integer is
non-negative, and in that case `parseInt` recovers the integer.  Stated over a `ℕ`
index `k` with the integer being `k - 97`. -/
theorem toString_int_digits : ∀ k : ℕ, k < 197 →
    ((!(toString ((k : ℤ) - 97)).data.isEmpty &&
        (toString ((k : ℤ) - 97)).data.all isDigitChar) = decide (97 ≤ k) ∧
      (97 ≤ k → (digitsToNat (toString ((k : ℤ) - 97)).data : ℤ) = (k : ℤ) - 97)) := by
  decide

/-- The digit part of the claimed pattern holds for the rendering of 1..99. -/
theorem toString_claimDigits : ∀ k : ℕ, k < 99 →
    claimDigitsOk (toString ((k : ℤ) + 1)).data = true := by
  decide

/-- The characters of a grid label, by computation on `String.append`. -/
theorem coordsToGrid_data (lat lng : ℚ) :
    (coordsToGrid lat lng).data
      = gridLetter lat :: ':' :: (toString (gridNumber lng)).data := rfl

/-! ### Claim C1: shape of the encoded label -/

/-- Claim C1, counterexample: at latitude `-0.001` (one grid step south of the
equator) the code returns `"@:1"`, because `Math.floor(-0.001 * 1000) % 26 = -1`
under the JS truncated remainder and `String.fromCharCode(64)` is `'@'`;
this does not match `^[A-Z]:[1-9][0-9]?$`, refuting the claim for negative
coordinates. -/
theorem c1_counterexample :
    coordsToGrid (-1/1000 : ℚ) 0 = "@:1" ∧
      claimLabelPattern (coordsToGrid (-1/1000 : ℚ) 0) = false := by
  have h1 : latBase (-1/1000 : ℚ) = ((-1 : ℤ)).tmod 26 :=
    latBase_eq_tmod _ _ (by norm_num)
  have h2 : lngBase (0 : ℚ) = ((0 : ℤ)).tmod 99 := lngBase_eq_tmod _ _ (by norm_num)
  constructor
  · simp only [coordsToGrid, gridLetter, gridNumber, h1, h2]
    decide
  · simp only [coordsToGrid, gridLetter, gridNumber, h1, h2, claimLabelPattern]
    decide

/-- Claim C1 (amended to non-negative coordinates): for `0 ≤ lat` and `0 ≤ lng`,
`coordsToGrid` returns a string matching `^[A-Z]:[1-9][0-9]?$`. -/
theorem c1_encode_pattern (lat lng : ℚ) (hlat : 0 ≤ lat) (hlng : 0 ≤ lng) :
    claimLabelPattern (coordsToGrid lat lng) = true := by
  have hfl : 0 ≤ ⌊lat * 1000⌋ := Int.floor_nonneg.mpr (by positivity)
  have hfn : 0 ≤ ⌊lng * 1000⌋ := Int.floor_nonneg.mpr (by positivity)
  have hL0 : 0 ≤ latBase lat := Int.tmod_nonneg _ hfl
  have hL1 : latBase lat < 26 := Int.tmod_lt_of_pos _ (by norm_num)
  have hM0 : 0 ≤ lngBase lng := Int.tmod_nonneg _ hfn
  have hM1 : lngBase lng < 99 := Int.tmod_lt_of_pos _ (by norm_num)
  have hn : (65 + latBase lat).toNat < 91 := by omega
  have hletter : isUpperAZ (gridLetter lat) = true := by
    unfold gridLetter
    rw [(isUpperAZ_ofNat _ hn).1]
    simp only [decide_eq_true_eq]
    omega
  have hk : (gridNumber lng - 1).toNat < 99 := by unfold gridNumber; omega
  have hkc : ((gridNumber lng - 1).toNat : ℤ) + 1 = gridNumber lng := by
    unfold gridNumber; omega
  have hdig := toString_claimDigits _ hk
  rw [hkc] at hdig
  simp only [claimLabelPattern, coordsToGrid_data, hletter, hdig]
  decide

/-- Claim C1 witness: the amended pattern claim evaluated at `(40, 74)`. -/
theorem c1_encode_pattern_witness :
    claimLabelPattern (coordsToGrid (40 : ℚ) 74) = true :=
  c1_encode_pattern 40 74 (by norm_num) (by norm_num)

/-! ### Claim C2: label stability of decode-then-re-encode -/

/-- Claim C2, counterexample: at `lat = -0.001, lng = 0` the encoded label is
`"@:1"`, which `gridToCoords` rejects (returns `null`), so the composite
re-encoding of the decoded anchor cannot reproduce the label: the claim fails
for this latitude/longitude pair. -/
theorem c2_counterexample :
    ¬ ∃ c : Coords, gridToCoords (coordsToGrid (-1/1000 : ℚ) 0) = some c ∧
      coordsToGrid c.lat c.lng = coordsToGrid (-1/1000 : ℚ) 0 := by
  have h1 : latBase (-1/1000 : ℚ) = ((-1 : ℤ)).tmod 26 :=
    latBase_eq_tmod _ _ (by norm_num)
  have h2 : lngBase (0 : ℚ) = ((0 : ℤ)).tmod 99 := lngBase_eq_tmod _ _ (by norm_num)
  have henc : coordsToGrid (-1/1000 : ℚ) 0 = "@:1" := by
    simp only [coordsToGrid, gridLetter, gridNumber, h1, h2]
    decide
  rintro ⟨c, hc, -⟩
  rw [henc] at hc
  have : gridToCoords "@:1" = none := by decide
  rw [this] at hc
  exact Option.noConfusion hc

/-- Claim C2 (amended): whenever decoding the encoded label succeeds,
re-encoding the decoded anchor point reproduces the original label. -/
theorem c2_label_stable (lat lng : ℚ) (c : Coords)
    (h : gridToCoords (coordsToGrid lat lng) = some c) :
    coordsToGrid c.lat c.lng = coordsToGrid lat lng := by
  have hL := tmod_bounds ⌊lat * 1000⌋ (b := 26) (by norm_num)
  have hM := tmod_bounds ⌊lng * 1000⌋ (b := 99) (by norm_num)
  have hLb : -26 < latBase lat ∧ latBase lat < 26 := hL
  have hMb : -99 < lngBase lng ∧ lngBase lng < 99 := hM
  rw [gridToCoords, coordsToGrid_data] at h
  simp only [beq_self_eq_true, Bool.true_and] at h
  split at h
  case isFalse => exact absurd h (by simp)
  case isTrue hcond =>
    have hcond' := hcond
    rw [Bool.and_eq_true, Bool.and_eq_true] at hcond'
    obtain ⟨⟨hup, hne⟩, hdigs⟩ := hcond'
    -- the letter: decode success forces `0 ≤ latBase lat`
    have hn : (65 + latBase lat).toNat < 91 := by omega
    have hup' := hup
    rw [show gridLetter lat = Char.ofNat (65 + latBase lat).toNat from rfl,
      (isUpperAZ_ofNat _ hn).1] at hup'
    have hL0 : 0 ≤ latBase lat := by
      have := of_decide_eq_true hup'
      omega
    -- the digits: decode success forces `0 ≤ gridNumber lng` and parseInt inverts
    have hk : (gridNumber lng + 97).toNat < 197 := by unfold gridNumber; omega
    have hkc : ((gridNumber lng + 97).toNat : ℤ) - 97 = gridNumber lng := by
      unfold gridNumber; omega
    have hd := toString_int_digits _ hk
    rw [hkc] at hd
    have hdec : decide (97 ≤ (gridNumber lng + 97).toNat) = true := by
      rw [← hd.1]
      simp [hne, hdigs]
    have hN0 : 0 ≤ gridNumber lng := by
      have := of_decide_eq_true hdec
      omega
    have hparse : (digitsToNat (toString (gridNumber lng)).data : ℤ) = gridNumber lng :=
      hd.2 (of_decide_eq_true hdec)
    -- the decoded coordinates
    have hc := Option.some.injEq .. ▸ h
    have hclat : c.lat = ((latBase lat : ℤ) : ℚ) / 1000 := by
      rw [← hc]
      have : ((gridLetter lat).toNat : ℤ) = 65 + latBase lat := by
        rw [show gridLetter lat = Char.ofNat (65 + latBase lat).toNat from rfl,
          (isUpperAZ_ofNat _ hn).2]
        omega
      rw [this]
      norm_num
    have hclng : c.lng = ((lngBase lng : ℤ) : ℚ) / 1000 := by
      rw [← hc]
      rw [hparse]
      unfold gridNumber
      push_cast
      ring_nf
    -- re-encoding reproduces the bases
    have hre_lat : latBase c.lat = latBase lat := by
      rw [hclat, latBase_eq_tmod _ (latBase lat)
        (div_mul_cancel₀ _ (by norm_num : (1000 : ℚ) ≠ 0))]
      exact tmod_self_of_bounds hL0 hLb.2
    have hre_lng : lngBase c.lng = lngBase lng := by
      rw [hclng, lngBase_eq_tmod _ (lngBase lng)
        (div_mul_cancel₀ _ (by norm_num : (1000 : ℚ) ≠ 0))]
      have hM0 : -1 ≤ lngBase lng := by unfold gridNumber at hN0; omega
      rcases eq_or_lt_of_le hM0 with hMeq | hMpos
    -- `lngBase` may be `-1` (number 0 also decodes); its remainder is itself
      · rw [← hMeq]; decide
      · exact tmod_self_of_bounds (by omega) hMb.2
    simp only [coordsToGrid, gridLetter, gridNumber, hre_lat, hre_lng]

/-- Claim C2 witness: the amended stability claim evaluated at `(0, 0)`,
whose label `"A:1"` decodes to the anchor `(0, 0)`. -/
theorem c2_label_stable_witness :
    gridToCoords (coordsToGrid (0 : ℚ) 0) = some ⟨0, 0⟩ ∧
      coordsToGrid (Coords.mk 0 0).lat (Coords.mk 0 0).lng = coordsToGrid (0 : ℚ) 0 := by
  have henc : coordsToGrid (0 : ℚ) 0 = "A:1" := by
    have h1 : latBase 0 = ((0 : ℤ)).tmod 26 := latBase_eq_tmod 0 0 (by norm_num)
    have h2 : lngBase 0 = ((0 : ℤ)).tmod 99 := lngBase_eq_tmod 0 0 (by norm_num)
    simp only [coordsToGrid, gridLetter, gridNumber, h1, h2]
    decide
  have hdec : gridToCoords (coordsToGrid (0 : ℚ) 0) = some ⟨0, 0⟩ := by
    rw [henc]
    have hd : ("A:1").data = ['A', ':', '1'] := rfl
    norm_num [gridToCoords, hd, digitsToNat, isUpperAZ, isDigitChar,
      (by decide : 'A' ≤ 'A'), (by decide : 'A' ≤ 'Z'),
      (by decide : '0' ≤ '1'), (by decide : '1' ≤ '9'),
      show 'A'.toNat = 65 from rfl, show '1'.toNat = 49 from rfl]
  exact ⟨hdec, c2_label_stable 0 0 ⟨0, 0⟩ hdec⟩

/-! ### Presence classifier, from `src/src/components/UserTrackingPage.tsx` -/

/-- Embedding of `timeDiff / (1000 * 60)` where `timeDiff = now.getTime() - lastUpdate.getTime()`
(UserTrackingPage.tsx lines 121-124 and 134-137); timestamps in milliseconds. -/
def minutesDiff (last_updated now : ℤ) : ℚ := ((now : ℚ) - (last_updated : ℚ)) / (1000 * 60)

/-- Embedding of `getStatusColor` (UserTrackingPage.tsx lines 118-129). -/
def getStatusColor (is_sharing : Bool) (last_updated now : ℤ) : String :=
  if !is_sharing then "bg-gray-500"
  else if minutesDiff last_updated now < 5 then "bg-green-500"
  else if minutesDiff last_updated now < 30 then "bg-yellow-500"
  else "bg-red-500"

/-- Embedding of `getStatusText` (UserTrackingPage.tsx lines 131-142). -/
def getStatusText (is_sharing : Bool) (last_updated now : ℤ) : String :=
  if !is_sharing then "Not sharing"
  else if minutesDiff last_updated now < 5 then "Online"
  else if minutesDiff last_updated now < 30 then "Recently active"
  else "Offline"

/-- Claim C3: the presence classifier returns "Not sharing" whenever `is_sharing`
is false regardless of the timestamp; otherwise, with `age = now - lastUpdated`
in minutes, it returns Online for `age < 5`, Recently active for `5 ≤ age < 30`
and Offline for `30 ≤ age`, with the matching status colors. -/
theorem c3_presence_classifier (last now : ℤ) :
    (getStatusText false last now = "Not sharing" ∧
      getStatusColor false last now = "bg-gray-500") ∧
    (minutesDiff last now < 5 →
      getStatusText true last now = "Online" ∧
        getStatusColor true last now = "bg-green-500") ∧
    (5 ≤ minutesDiff last now → minutesDiff last now < 30 →
      getStatusText true last now = "Recently active" ∧
        getStatusColor true last now = "bg-yellow-500") ∧
    (30 ≤ minutesDiff last now →
      getStatusText true last now = "Offline" ∧
        getStatusColor true last now = "bg-red-500") := by
  refine ⟨⟨rfl, rfl⟩, fun h1 => ?_, fun h2 h3 => ?_, fun h4 => ?_⟩
  · constructor <;> simp [getStatusText, getStatusColor, h1]
  · have h5 : ¬ minutesDiff last now < 5 := not_lt.mpr h2
    constructor <;> simp [getStatusText, getStatusColor, h5, h3]
  · have h5 : ¬ minutesDiff last now < 5 := not_lt.mpr (by linarith)
    have h6 : ¬ minutesDiff last now < 30 := not_lt.mpr h4
    constructor <;> simp [getStatusText, getStatusColor, h5, h6]

/-- Claim C3 witness: the classifier at the spec's sample ages — 4m59s is Online,
29m59s is Recently active, 31m is Offline, and not sharing masks them all. -/
theorem c3_presence_classifier_witness :
    getStatusText true 0 299000 = "Online" ∧
      getStatusText true 0 1799000 = "Recently active" ∧
      getStatusText true 0 1860000 = "Offline" ∧
      getStatusText false 0 1860000 = "Not sharing" :=
  ⟨((c3_presence_classifier 0 299000).2.1 (by norm_num [minutesDiff])).1,
   ((c3_presence_classifier 0 1799000).2.2.1 (by norm_num [minutesDiff])
      (by norm_num [minutesDiff])).1,
   ((c3_presence_classifier 0 1860000).2.2.2 (by norm_num [minutesDiff])).1,
   (c3_presence_classifier 0 1860000).1.1⟩

/-! ### Location publisher and sharing toggle, from `src/src/components/LocationToggle.tsx` -/

/-- JS truthiness of a nullable number: `null` and `0` are falsy. -/
def jsTruthyNum : Option ℚ → Bool
  | none => false
  | some v => decide (v ≠ 0)

/-- JS truthiness of a nullable string: `null` and `""` are falsy. -/
def jsTruthyStr : Option String → Bool
  | none => false
  | some s => decide (s ≠ "")

/-- The component state read by `LocationToggle`'s closures: the `isSharing`
React state, the geolocation hook's reading and error, the selected production
and the authenticated user id. -/
structure GeoState where
  isSharing : Bool
  latitude : Option ℚ
  longitude : Option ℚ
  selectedProduction : Option String
  geoError : Option String
  userId : String
deriving DecidableEq

/-- A row payload passed to `supabase.from('location_shares').upsert(...)`.
`latitude`, `longitude` and `grid_reference` are `none` when the column is
absent from the payload (the toggle-off write omits them). -/
structure UpsertPayload where
  user_id : String
  production_id : String
  latitude : Option ℚ
  longitude : Option ℚ
  grid_reference : Option String
  is_sharing : Bool
  last_updated : ℤ
deriving DecidableEq

/-- Embedding of `updateLocation` (LocationToggle.tsx lines 53-75): guarded by
`if (!latitude || !longitude || !selectedProduction) return;`, then it upserts
the full row with the grid label computed by `coordsToGrid` and
`is_sharing: isSharing` from the enclosing render's state.  Returns the
attempted payload, `none` when the guard returns early.  The write error is
caught inside this function and only logged, so callers never observe it. -/
def updateLocation (st : GeoState) (now : ℤ) : Option UpsertPayload :=
  if !jsTruthyNum st.latitude || !jsTruthyNum st.longitude ||
      !jsTruthyStr st.selectedProduction then none
  else
    some { user_id := st.userId
           production_id := st.selectedProduction.getD ""
           latitude := some (st.latitude.getD 0)
           longitude := some (st.longitude.getD 0)
           grid_reference := some (coordsToGrid (st.latitude.getD 0) (st.longitude.getD 0))
           is_sharing := st.isSharing
           last_updated := now }

/-- The publishing effect's condition (LocationToggle.tsx lines 29-33):
`if (isSharing && latitude && longitude && selectedProduction) updateLocation()`. -/
def locationEffectFires (st : GeoState) : Bool :=
  st.isSharing && jsTruthyNum st.latitude && jsTruthyNum st.longitude &&
    jsTruthyStr st.selectedProduction

/-- The payload of the toggle-off branch (LocationToggle.tsx lines 105-114):
only `is_sharing: false` and `last_updated` besides the key columns. -/
def offPayload (st : GeoState) (now : ℤ) : UpsertPayload :=
  { user_id := st.userId
    production_id := st.selectedProduction.getD ""
    latitude := none
    longitude := none
    grid_reference := none
    is_sharing := false
    last_updated := now }

/-- The toasts `LocationToggle` can raise. -/
inductive ToggleToast
  | noProductionSelected
  | locationError
  | sharingEnabled
  | sharingDisabled
  | updateFailed
deriving DecidableEq

/-- Observable outcome of one `toggleLocationSharing` call: the final
`isSharing` React state, the toasts raised and the store writes attempted. -/
structure ToggleResult where
  isSharing : Bool
  toasts : List ToggleToast
  writes : List UpsertPayload
deriving DecidableEq

/-- Embedding of `toggleLocationSharing` (LocationToggle.tsx lines 77-135), with `writeFails`
modelling failure of the `location_shares` upsert.  In the enable-with-coordinate
branch the write happens inside `updateLocation`, whose own catch swallows the
error, so the outer catch — rollback `setIsSharing(!enabled)` plus error toast —
runs only when the direct upsert of the else-branch fails.  `updateLocation` is
called with the render's `isSharing` still at its pre-`setIsSharing` value. -/
def toggleLocationSharing (st : GeoState) (enabled : Bool) (writeFails : Bool)
    (now : ℤ) : ToggleResult :=
  if !jsTruthyStr st.selectedProduction then
    { isSharing := st.isSharing, toasts := [ToggleToast.noProductionSelected], writes := [] }
  else if jsTruthyStr st.geoError then
    { isSharing := st.isSharing, toasts := [ToggleToast.locationError], writes := [] }
  else if enabled && jsTruthyNum st.latitude && jsTruthyNum st.longitude then
    { isSharing := enabled
      toasts := [ToggleToast.sharingEnabled]
      writes := (updateLocation st now).toList }
  else if writeFails then
    { isSharing := !enabled
      toasts := [ToggleToast.updateFailed]
      writes := [offPayload st now] }
  else
    { isSharing := enabled
      toasts := [ToggleToast.sharingDisabled]
      writes := [offPayload st now] }

/-- A stored `location_shares` row (non-key columns). -/
structure LocationRow where
  latitude : Option ℚ
  longitude : Option ℚ
  grid_reference : Option String
  is_sharing : Bool
  last_updated : ℤ
deriving DecidableEq

/-- The `location_shares` table, keyed by `(user_id, production_id)`. -/
def Store := String × String → Option LocationRow

/-- Merge of one payload column on conflict: a column present in the payload
overwrites, an absent one keeps the stored value. -/
def mergeCol {α : Type} : Option α → Option α → Option α
  | some v, _ => some v
  | none, old => old

/-- The `INSERT .. ON CONFLICT (user_id, production_id) DO UPDATE` semantics of
the PostgREST upsert used by the component: update the payload's columns at the
payload's key, keep the others. -/
def applyUpsert (db : Store) (p : UpsertPayload) : Store := fun k =>
  if k = (p.user_id, p.production_id) then
    match db k with
    | some r =>
      some { latitude := mergeCol p.latitude r.latitude
             longitude := mergeCol p.longitude r.longitude
             grid_reference := mergeCol p.grid_reference r.grid_reference
             is_sharing := p.is_sharing
             last_updated := p.last_updated }
    | none =>
      some { latitude := p.latitude
             longitude := p.longitude
             grid_reference := p.grid_reference
             is_sharing := p.is_sharing
             last_updated := p.last_updated }
  else db k

/-! ### Claim C4: the publisher writes the full record -/

/-- Claim C4: whenever the publisher effect fires (sharing enabled, a non-zero
coordinate available, a production selected), `updateLocation` attempts the
upsert of the full record — coordinates, grid reference computed by
`coordsToGrid` from them, `is_sharing = true`, `last_updated = now` — and the
upsert stores exactly that record under the `(userId, productionId)` key. -/
theorem c4_publisher_full_upsert (st : GeoState) (now : ℤ)
    (h : locationEffectFires st = true) :
    updateLocation st now = some
      { user_id := st.userId
        production_id := st.selectedProduction.getD ""
        latitude := some (st.latitude.getD 0)
        longitude := some (st.longitude.getD 0)
        grid_reference := some (coordsToGrid (st.latitude.getD 0) (st.longitude.getD 0))
        is_sharing := true
        last_updated := now } ∧
    some (st.latitude.getD 0) = st.latitude ∧
    some (st.longitude.getD 0) = st.longitude ∧
    (∀ db : Store, ∀ p : UpsertPayload, updateLocation st now = some p →
      applyUpsert db p (st.userId, st.selectedProduction.getD "") =
        some { latitude := some (st.latitude.getD 0)
               longitude := some (st.longitude.getD 0)
               grid_reference := some (coordsToGrid (st.latitude.getD 0) (st.longitude.getD 0))
               is_sharing := true
               last_updated := now }) := by
  have hb := h
  rw [locationEffectFires, Bool.and_eq_true, Bool.and_eq_true, Bool.and_eq_true] at hb
  obtain ⟨⟨⟨hsh, hlat⟩, hlng⟩, hprod⟩ := hb
  have hupd : updateLocation st now = some
      { user_id := st.userId
        production_id := st.selectedProduction.getD ""
        latitude := some (st.latitude.getD 0)
        longitude := some (st.longitude.getD 0)
        grid_reference := some (coordsToGrid (st.latitude.getD 0) (st.longitude.getD 0))
        is_sharing := true
        last_updated := now } := by
    rw [updateLocation, hlat, hlng, hprod, hsh]
    simp
  have hlat' : some (st.latitude.getD 0) = st.latitude := by
    cases hx : st.latitude with
    | none => rw [hx] at hlat; simp [jsTruthyNum] at hlat
    | some v => rfl
  have hlng' : some (st.longitude.getD 0) = st.longitude := by
    cases hx : st.longitude with
    | none => rw [hx] at hlng; simp [jsTruthyNum] at hlng
    | some v => rfl
  refine ⟨hupd, hlat', hlng', fun db p hp => ?_⟩
  rw [hupd] at hp
  injection hp with hp
  subst hp
  rw [applyUpsert]
  simp only [if_pos rfl]
  cases db (st.userId, st.selectedProduction.getD "") <;> simp [mergeCol]

/-- Claim C4 witness: a concrete firing state — sharing on, reading
`(40, -74)`, production `"prod-1"` — publishes the full record. -/
theorem c4_publisher_full_upsert_witness :
    updateLocation ⟨true, some 40, some (-74), some "prod-1", none, "user-1"⟩ 1 = some
      { user_id := "user-1"
        production_id := "prod-1"
        latitude := some 40
        longitude := some (-74)
        grid_reference := some (coordsToGrid 40 (-74))
        is_sharing := true
        last_updated := 1 } :=
  (c4_publisher_full_upsert ⟨true, some 40, some (-74), some "prod-1", none, "user-1"⟩ 1
    (by decide)).1

/-! ### Claim C5: the toggle-off write preserves stored coordinates -/

/-- Claim C5: the toggle-off upsert carries only `is_sharing=false` and
`last_updated=now` besides the key, so for an existing row the stored latitude,
longitude and grid reference are left unchanged. -/
theorem c5_off_write_preserves_coords (db : Store) (st : GeoState) (now : ℤ)
    (r : LocationRow)
    (hkey : db (st.userId, st.selectedProduction.getD "") = some r) :
    applyUpsert db (offPayload st now) (st.userId, st.selectedProduction.getD "") =
      some { latitude := r.latitude
             longitude := r.longitude
             grid_reference := r.grid_reference
             is_sharing := false
             last_updated := now } := by
  simp [applyUpsert, offPayload, hkey, mergeCol]

/-- The spec's retention scenario, first state: sharing enabled with a fix at
`(40.0, -74.0)` on production `"prod-1"`. -/
def scenarioOnState : GeoState :=
  ⟨true, some 40, some (-74), some "prod-1", none, "user-1"⟩

/-- The spec's retention scenario, later states: the toggle is flipped while no
geolocation reading is available, so only off-shape writes can occur. -/
def scenarioNoFixState : GeoState :=
  ⟨false, none, none, some "prod-1", none, "user-1"⟩

/-- The table before the scenario starts. -/
def emptyStore : Store := fun _ => none

/-- The table after the publisher records `(40, -74)`: the payload is the one
`updateLocation scenarioOnState 1` produces (claim C4's witness). -/
def scenarioDb1 : Store :=
  applyUpsert emptyStore
    { user_id := "user-1"
      production_id := "prod-1"
      latitude := some 40
      longitude := some (-74)
      grid_reference := some (coordsToGrid 40 (-74))
      is_sharing := true
      last_updated := 1 }

/-- Claim C5 witness: enable and record `(40, -74)`, disable, then re-enable
with no new GPS fix (another off-shape write): the last known coordinates and
grid reference are still present in the stored row. -/
theorem c5_off_write_preserves_coords_witness :
    applyUpsert (applyUpsert scenarioDb1 (offPayload scenarioNoFixState 2))
        (offPayload scenarioNoFixState 3) ("user-1", "prod-1") =
      some { latitude := some 40
             longitude := some (-74)
             grid_reference := some (coordsToGrid 40 (-74))
             is_sharing := false
             last_updated := 3 } := by
  have h1 : scenarioDb1 ("user-1", "prod-1") =
      some { latitude := some 40
             longitude := some (-74)
             grid_reference := some (coordsToGrid 40 (-74))
             is_sharing := true
             last_updated := 1 } := by
    simp [scenarioDb1, applyUpsert, emptyStore]
  have h2 := c5_off_write_preserves_coords scenarioDb1 scenarioNoFixState 2 _ h1
  have h3 := c5_off_write_preserves_coords
    (applyUpsert scenarioDb1 (offPayload scenarioNoFixState 2)) scenarioNoFixState 3 _ h2
  exact h3

/-! ### Claim C6: rollback on write failure -/

/-- Claim C6, counterexample: toggling ON with a coordinate available while the
store write fails.  The failing upsert happens inside `updateLocation`, whose
internal catch swallows it, so the outer catch never runs: the local state stays
at the new value `true` (the pre-toggle value was `false`, so no rollback) and
no error toast is surfaced — the success toast is. -/
theorem c6_counterexample :
    (toggleLocationSharing ⟨false, some 40, some (-74), some "prod-1", none, "user-1"⟩
        true true 5).isSharing = true ∧
      ToggleToast.updateFailed ∉
        (toggleLocationSharing ⟨false, some 40, some (-74), some "prod-1", none, "user-1"⟩
          true true 5).toasts ∧
      (toggleLocationSharing ⟨false, some 40, some (-74), some "prod-1", none, "user-1"⟩
          true true 5).toasts = [ToggleToast.sharingEnabled] := by
  refine ⟨?_, ?_, ?_⟩ <;> decide

/-- Claim C6 (amended): when the failing write is the one issued directly by
`toggleLocationSharing` — the branch taken when disabling, or when enabling
without a usable coordinate — the local state is rolled back to `!enabled`
(the pre-toggle value, since the switch hands the toggle the negation of the
rendered state), the error toast is surfaced, and exactly one write was
attempted; no retry occurs in any branch (never more than one write). -/
theorem c6_rollback_on_direct_write_failure (st : GeoState) (enabled : Bool) (now : ℤ)
    (hprod : jsTruthyStr st.selectedProduction = true)
    (hgeo : jsTruthyStr st.geoError = false)
    (hbranch : (enabled && jsTruthyNum st.latitude && jsTruthyNum st.longitude) = false) :
    (toggleLocationSharing st enabled true now).isSharing = !enabled ∧
      (enabled = !st.isSharing →
        (toggleLocationSharing st enabled true now).isSharing = st.isSharing) ∧
      (toggleLocationSharing st enabled true now).toasts = [ToggleToast.updateFailed] ∧
      (toggleLocationSharing st enabled true now).writes = [offPayload st now] ∧
      (∀ w : Bool, (toggleLocationSharing st enabled w now).writes.length ≤ 1) := by
  have hmain : toggleLocationSharing st enabled true now =
      { isSharing := !enabled
        toasts := [ToggleToast.updateFailed]
        writes := [offPayload st now] } := by
    simp [toggleLocationSharing, hprod, hgeo, hbranch]
  refine ⟨by rw [hmain], fun he => ?_, by rw [hmain], by rw [hmain], fun w => ?_⟩
  · rw [hmain, he]
    simp
  · cases w <;> simp [toggleLocationSharing, hprod, hgeo, hbranch]

/-- Claim C6 witness: disabling (`enabled = false`, previously sharing) with a
failing write rolls the local state back to sharing and raises the error toast. -/
theorem c6_rollback_witness :
    (toggleLocationSharing ⟨true, none, none, some "prod-1", none, "user-1"⟩
        false true 7).isSharing = true ∧
      (toggleLocationSharing ⟨true, none, none, some "prod-1", none, "user-1"⟩
        false true 7).toasts = [ToggleToast.updateFailed] := by
  have h := c6_rollback_on_direct_write_failure
    ⟨true, none, none, some "prod-1", none, "user-1"⟩ false 7
    (by decide) (by decide) (by decide)
  exact ⟨(h.2.1 (by decide)).trans rfl, h.2.2.1⟩

/-! ### Claim C10: zero coordinates are dropped by the falsiness guards -/

/-- Claim C10: a geolocation reading whose latitude or longitude is exactly 0
(equator / prime meridian) is treated as absent: `updateLocation` returns
without writing, because `!latitude || !longitude` tests JS falsiness and `0`
is falsy, and the publishing effect's `latitude && longitude` condition
likewise never fires. -/
theorem c10_zero_coordinate_never_published (st : GeoState) (now : ℤ)
    (h : st.latitude = some 0 ∨ st.longitude = some 0) :
    updateLocation st now = none ∧ locationEffectFires st = false := by
  have hz : jsTruthyNum (some (0 : ℚ)) = false := by
    simp [jsTruthyNum]
  rcases h with h | h <;>
    exact ⟨by simp [updateLocation, h, hz], by simp [locationEffectFires, h, hz]⟩

/-- Claim C10 witness: sharing on, production selected, reading `(0, 10)` — a
point on the equator — is never published. -/
theorem c10_zero_coordinate_never_published_witness :
    updateLocation ⟨true, some 0, some 10, some "prod-1", none, "user-1"⟩ 3 = none ∧
      locationEffectFires ⟨true, some 0, some 10, some "prod-1", none, "user-1"⟩ = false :=
  c10_zero_coordinate_never_published _ 3 (Or.inl rfl)

/-! ### Claim C7: change-feed subscription lifecycle, from `UserTrackingPage.tsx` -/

/-- A realtime channel opened by `subscribeToLocationUpdates`: the
`postgres_changes` filter `production_id=eq.X`, and the production that the
captured `fetchUserLocations` closure will re-fetch when the handler fires
(the `selectedProduction` value at subscription time). -/
structure Channel where
  filterProduction : String
  fetchTarget : String
deriving DecidableEq

/-- Embedding of `subscribeToLocationUpdates` (UserTrackingPage.tsx lines 91-115): opens a
channel filtered to the selected production and returns the closure that would
remove that channel again (`supabase.removeChannel(channel)`). -/
def subscribeToLocationUpdates (prod : String) :
    Channel × (List Channel → List Channel) :=
  (⟨prod, prod⟩, fun chans => chans.filter (fun c => !(c == ⟨prod, prod⟩)))

/-- The subscription effect (UserTrackingPage.tsx lines 42-46): its body is
`if (selectedProduction) { subscribeToLocationUpdates(); }` — it calls the
subscriber but discards the returned unsubscribe closure and returns
`undefined`, handing no cleanup back to the framework. -/
def userTrackingSubscriptionEffect (prod : Option String) :
    List Channel × Option (List Channel → List Channel) :=
  match prod with
  | some p => ([(subscribeToLocationUpdates p).1], none)
  | none => ([], none)

/-- React's effect lifecycle over successive values of the `selectedProduction`
dependency: before each re-run, the cleanup returned by the previous run — if
one was returned — is executed on the live channel set. -/
def runSubscriptionEffects :
    List (Option String) → List Channel → Option (List Channel → List Channel) →
      List Channel
  | [], chans, _ => chans
  | p :: rest, chans, pending =>
    let cleaned := match pending with
      | some clean => clean chans
      | none => chans
    let step := userTrackingSubscriptionEffect p
    runSubscriptionEffects rest (cleaned ++ step.1) step.2

/-- A change event on `location_shares` rows of a production: every live
channel whose filter matches fires its handler, re-fetching the production
captured in the handler's closure into the mounted view. -/
def dispatchEvent (chans : List Channel) (eventProd : String) : List String :=
  (chans.filter (fun c => c.filterProduction == eventProd)).map
    (fun c => c.fetchTarget)

/-- Claim C7 fails on `UserTrackingPage`: after the selected production changes
from `"p1"` to `"p2"`, the channel subscribed for `"p1"` is still live (the
effect discarded the unsubscribe closure, so the framework had no cleanup to
run), and a late-arriving `"p1"` event still triggers a re-fetch of `"p1"`
into the mounted view. -/
theorem c7_stale_subscription_leak :
    runSubscriptionEffects [some "p1", some "p2"] [] none =
      [⟨"p1", "p1"⟩, ⟨"p2", "p2"⟩] ∧
      dispatchEvent (runSubscriptionEffects [some "p1", some "p2"] [] none) "p1" =
        ["p1"] := by
  constructor <;> rfl

/-! ### Claim C8: decode is total, null exactly on pattern mismatch -/

/-- The decode pattern as the spec states it: one uppercase letter, a colon,
then one or more digits, spanning the whole string. -/
def specGridPattern (s : String) : Prop :=
  ∃ l ds, s.data = l :: ':' :: ds ∧ ('A' ≤ l ∧ l ≤ 'Z') ∧ ds ≠ [] ∧
    ∀ c ∈ ds, '0' ≤ c ∧ c ≤ '9'

/-- Claim C8: `gridToCoords` — a total function, it never throws — returns a
non-null pair on every string matching the pattern and `null` on every other
string. -/
theorem c8_decode_null_iff_mismatch (s : String) :
    (specGridPattern s → ∃ c, gridToCoords s = some c) ∧
      (¬ specGridPattern s → gridToCoords s = none) := by
  constructor
  · rintro ⟨l, ds, hdata, ⟨h1, h2⟩, hne, hdig⟩
    rw [gridToCoords, hdata]
    have hcond : (':' == ':' && isUpperAZ l && !ds.isEmpty && ds.all isDigitChar)
        = true := by
      simp [isUpperAZ, isDigitChar, h1, h2, List.all_eq_true, hne,
        List.isEmpty_iff]
      exact hdig
    simp only [hcond]
    exact ⟨_, rfl⟩
  · intro hns
    rcases hdata : s.data with _ | ⟨l, _ | ⟨c2, rest⟩⟩
    · rw [gridToCoords, hdata]
    · rw [gridToCoords, hdata]
    · rw [gridToCoords, hdata]
      rcases hcb : (c2 == ':' && isUpperAZ l && !rest.isEmpty && rest.all isDigitChar)
      · simp only [hcb]
        rfl
      · exfalso
        apply hns
        rw [Bool.and_eq_true, Bool.and_eq_true, Bool.and_eq_true] at hcb
        obtain ⟨⟨⟨hc, hu⟩, hne⟩, hall⟩ := hcb
        rw [isUpperAZ, Bool.and_eq_true, decide_eq_true_eq, decide_eq_true_eq] at hu
        refine ⟨l, rest, ?_, hu, ?_, ?_⟩
        · rw [hdata, beq_iff_eq.mp hc]
        · simpa [List.isEmpty_iff] using hne
        · intro c hmem
          have := List.all_eq_true.mp hall c hmem
          rw [isDigitChar, Bool.and_eq_true, decide_eq_true_eq, decide_eq_true_eq]
            at this
          exact this

/-- Claim C8 witness: `"B:7"` matches and decodes to a pair; `"b:7"` (lowercase)
does not match and decodes to `null`. -/
theorem c8_decode_null_iff_mismatch_witness :
    (∃ c, gridToCoords "B:7" = some c) ∧ gridToCoords "b:7" = none := by
  constructor
  · exact (c8_decode_null_iff_mismatch "B:7").1
      ⟨'B', ['7'], rfl, by decide, by decide, by decide⟩
  · refine (c8_decode_null_iff_mismatch "b:7").2 ?_
    rintro ⟨l, ds, hdata, ⟨h1, h2⟩, -, -⟩
    injection hdata with ha hb
    rw [← ha] at h2
    exact absurd h2 (by decide)

/-! ### Claim C9: the spec's decode examples -/

/-- Claim C9: `gridToCoords "Z:99" = {lat: 0.025, lng: 0.098}`,
`gridToCoords "A:1" = {lat: 0, lng: 0}`, `gridToCoords "not-a-grid" = null`. -/
theorem c9_decode_examples :
    gridToCoords "Z:99" = some ⟨0.025, 0.098⟩ ∧
      gridToCoords "A:1" = some ⟨0, 0⟩ ∧
      gridToCoords "not-a-grid" = none := by
  refine ⟨?_, ?_, by decide⟩
  · have hd : ("Z:99").data = ['Z', ':', '9', '9'] := rfl
    norm_num [gridToCoords, hd, digitsToNat, isUpperAZ, isDigitChar,
      (by decide : 'A' ≤ 'Z'), (by decide : '0' ≤ '9'),
      show 'Z'.toNat = 90 from rfl, show '9'.toNat = 57 from rfl]
  · have hd : ("A:1").data = ['A', ':', '1'] := rfl
    norm_num [gridToCoords, hd, digitsToNat, isUpperAZ, isDigitChar,
      (by decide : 'A' ≤ 'A'), (by decide : 'A' ≤ 'Z'),
      (by decide : '0' ≤ '1'), (by decide : '1' ≤ '9'),
      show 'A'.toNat = 65 from rfl, show '1'.toNat = 49 from rfl]
